import Mathlib

/-!
Shallow embedding of the game-downloader bot's multi-source scraping and
aggregation engine (src/main.py, src/scrapers/steamuground.py,
src/scrapers/ankergames.py, src/scrapers/gamebounty.py).

HTML/JSON documents fetched from the network are represented by structures
holding exactly the pieces the Python code reads out of them (CSS-selector
and dict lookups become fields; a missing element/key is `none`).  Network
calls are parameters: an environment function maps a request to its outcome,
with a dedicated constructor for "the call raised".  Python exceptions are
`Except`/`Option`; Python string truthiness (`if s:`) is `s ≠ ""` on an
`Option String` that is `some`.
-/

/-- The single quote character `'` (used by the AnkerGames regex patterns). -/
def sqChar : Char := Char.ofNat 39

/-- `String` made of one single-quote character. -/
def sqStr : String := String.mk [sqChar]

/-- Does `needle` occur at the very start of `hay`? (helper for substring tests) -/
def charsStartWith : List Char → List Char → Bool
  | [], _ => true
  | _ :: _, [] => false
  | n :: ns, h :: hs => n = h && charsStartWith ns hs

/-- Python's `needle in hay` substring test, on character lists. -/
def containsChars (needle : List Char) : List Char → Bool
  | [] => charsStartWith needle []
  | c :: t => charsStartWith needle (c :: t) || containsChars needle t

/-- Python's `needle in hay` on strings (substring containment). -/
def strContains (hay needle : String) : Bool :=
  containsChars needle.data hay.data

/-- Python's `str.lower()` (ASCII range, which is all the code relies on). -/
def pyLower (s : String) : String :=
  String.mk (s.data.map Char.toLower)

/-- Drop leading whitespace from a character list. -/
def dropWS : List Char → List Char
  | [] => []
  | c :: cs => if c.isWhitespace then dropWS cs else c :: cs

/-- Python's `str.strip()`: whitespace removed from both ends. -/
def pyStrip (s : String) : String :=
  String.mk ((dropWS (dropWS s.data).reverse).reverse)

/-- Python's `str.split()` (no argument): split on whitespace runs, no empties.
`acc` holds the current word reversed. -/
def pySplitAux : List Char → List Char → List (List Char)
  | [], acc => if acc.isEmpty then [] else [acc.reverse]
  | c :: cs, acc =>
    if c.isWhitespace then
      if acc.isEmpty then pySplitAux cs [] else acc.reverse :: pySplitAux cs []
    else pySplitAux cs (c :: acc)

/-- `_clean_text` from src/scrapers/ankergames.py: `" ".join(text.split())`
(and `""` for falsy input, which coincides with the general case on `""`). -/
def cleanText (s : String) : String :=
  String.intercalate " " ((pySplitAux s.data []).map String.mk)

/-- Value of a hex digit, `none` for non-hex characters. -/
def hexVal (c : Char) : Option Nat :=
  if c.toNat ≥ 48 ∧ c.toNat ≤ 57 then some (c.toNat - 48)
  else if c.toNat ≥ 97 ∧ c.toNat ≤ 102 then some (c.toNat - 97 + 10)
  else if c.toNat ≥ 65 ∧ c.toNat ≤ 70 then some (c.toNat - 65 + 10)
  else none

/-- `urllib.parse.unquote` on character lists: each `%hh` hex escape becomes
the character with that code; malformed escapes are left untouched.  (The
Python original additionally UTF-8-decodes consecutive escaped bytes; on the
ASCII escapes the scrapers deal in the two agree.) -/
def pyUnquoteAux : List Char → List Char
  | [] => []
  | '%' :: a :: b :: rest =>
    (match hexVal a, hexVal b with
     | some x, some y => Char.ofNat (16 * x + y) :: pyUnquoteAux rest
     | _, _ => '%' :: pyUnquoteAux (a :: b :: rest))
  | c :: rest => c :: pyUnquoteAux rest

/-- `re.search` for patterns of the shape `lit` + `cls`⁺ + `close` (this covers
both AnkerGames patterns: `generateDownloadUrl\((\d+)\)` and
`downloadPage\('([^']+)'`).  The scan tries every start position from the
left; at a position where the literal matches, the capture is the maximal run
of `cls` characters, which must be non-empty and followed by `close`
(regex backtracking cannot shorten the run, since a shorter run would be
followed by another `cls` character).  Returns the first capture found. -/
def matchLit : List Char → List Char → Option (List Char)
  | [], s => some s
  | _, [] => none
  | l :: ls, c :: cs => if l = c then matchLit ls cs else none

def scanCapture (lit : List Char) (cls : Char → Bool) (close : Char) :
    List Char → Option (List Char)
  | [] => none
  | c :: cs =>
    match matchLit lit (c :: cs) with
    | some rest =>
      let run := rest.takeWhile cls
      let rest2 := rest.dropWhile cls
      if ¬run.isEmpty ∧ rest2.head? = some close then some run
      else scanCapture lit cls close cs
    | none => scanCapture lit cls close cs

/-- Truthiness of an optional Python string: `None` and `""` are falsy. -/
def pyTruthyOptStr : Option String → Bool
  | none => false
  | some s => s ≠ ""

/-- f-string rendering of an optional Python string: `None` prints as "None". -/
def pyFmtOpt : Option String → String
  | some s => s
  | none => "None"

-- ## Common data model

/-- A search hit (`{title, url, source}` dict built by the Steam and Anker
`search_game_sync` functions). -/
structure Stub where
  title : String
  url : String
  source : String
deriving DecidableEq, Repr

/-- One entry of a record's `downloads` list.  The three scrapers build these
dicts with different key sets, so key presence is explicit: `resolved = none`
means the `"resolved"` key is absent (Steam and GameBounty entries),
`status = none` means the `"status"` key is absent, and `url = none` means the
`"url"` key holds Python `None` (possible for GameBounty mirror links). -/
structure DownloadEntry where
  host : String
  url : Option String
  resolved : Option Bool
  status : Option String
deriving DecidableEq, Repr

/-- A normalized result record, restricted to the fields the verified claims
are about.  `downloads = none` means the dict has no `"downloads"` key at all
(a GameBounty stub dict returned by its soft-fail detail path), `url = none`
likewise means no `"url"` key. -/
structure Record where
  title : String
  source : String
  url : Option String
  downloads : Option (List DownloadEntry)
deriving DecidableEq, Repr

-- ## SteamUnderground adapter (src/scrapers/steamuground.py)

/-- An `<a>` tag as the Steam scraper reads it: its text and its optional
`href` attribute. -/
structure SteamAnchor where
  text : String
  href : Option String
deriving DecidableEq, Repr

/-- An `<h4 class="title">` element: `find("a")` may or may not find a link. -/
structure SteamH4 where
  anchor : Option SteamAnchor
deriving DecidableEq, Repr

/-- One `<li class="small-post">` search item.  `h4 = none` models the item
having no `h4.title` element, in which case the Python
`item.find("h4", class_="title").find("a")` raises `AttributeError`. -/
structure SteamItem where
  h4 : Option SteamH4
deriving DecidableEq, Repr

/-- Outcome of the Steam search POST.  `netErr` covers a raised request or a
non-2xx `raise_for_status`; `badJson` covers `response.json()` raising (the
inner `try` returns `[]`); `ok items` is the parsed `li.small-post` list of
the JSON envelope's `content` HTML. -/
inductive SteamSearchResp where
  | netErr
  | badJson
  | ok (items : List SteamItem)
deriving DecidableEq, Repr

/-- The per-item loop of `steamuground.search_game_sync`.  A missing `h4`
raises (`Except.error`), which the function-level handler turns into `[]`;
an anchor missing, or with a falsy `href`, merely skips the item. -/
def steamItemStubs (h4 : SteamH4) : List Stub :=
  match h4.anchor with
  | some a =>
    match a.href with
    | some href =>
      if href ≠ "" then [⟨pyStrip a.text, href, "SteamUnderground"⟩] else []
    | none => []
  | none => []

def steamCollect : List SteamItem → Except Unit (List Stub)
  | [] => Except.ok []
  | it :: rest =>
    match it.h4 with
    | none => Except.error ()
    | some h4 =>
      match steamCollect rest with
      | Except.error e => Except.error e
      | Except.ok tl => Except.ok (steamItemStubs h4 ++ tl)

/-- `steamuground.search_game_sync`: any raised error (network, missing `h4`)
degrades to the empty list. -/
def steamSearch : SteamSearchResp → List Stub
  | SteamSearchResp.netErr => []
  | SteamSearchResp.badJson => []
  | SteamSearchResp.ok items =>
    match steamCollect items with
    | Except.error _ => []
    | Except.ok l => l

/-- A Steam detail page, restricted to what the claims under verification
read: the `.DownloadButtonContainer a` buttons.  (The image/metadata/system
requirement extractions in `get_game_details` are all guarded lookups that
cannot raise and do not feed any verified claim.) -/
structure SteamDetailPage where
  downloadBtns : List SteamAnchor
deriving DecidableEq, Repr

/-- The downloads loop of `steamuground.get_game_details`: each button yields
`{"host": btn.text.strip(), "url": btn["href"]}`.  A button without `href`
raises `KeyError` (`btn["href"]`), aborting the whole detail fetch.  Note the
built dict has no `"resolved"` and no `"status"` key. -/
def steamBuildDownloads : List SteamAnchor → Except Unit (List DownloadEntry)
  | [] => Except.ok []
  | a :: rest =>
    match a.href with
    | none => Except.error ()
    | some h =>
      match steamBuildDownloads rest with
      | Except.error e => Except.error e
      | Except.ok tl => Except.ok ({ host := pyStrip a.text, url := some h,
                                     resolved := none, status := none } :: tl)

/-- `steamuground.get_game_details`: `resp = none` models the page GET (or
`raise_for_status`) raising.  Any exception makes the function return `None`;
otherwise the record spreads `**basic_data` (title, url, source) and adds the
parsed downloads. -/
def steamDetail (resp : Option SteamDetailPage) (stub : Stub) : Option Record :=
  match resp with
  | none => none
  | some page =>
    match steamBuildDownloads page.downloadBtns with
    | Except.error _ => none
    | Except.ok dls =>
      some { title := stub.title, source := stub.source, url := some stub.url,
             downloads := some dls }

/-- `steamuground.run_scraper`: search, fan out the detail fetches in stub
order (`asyncio.gather` preserves argument order), drop the `None`s. -/
def steamRun (sr : SteamSearchResp) (env : Stub → Option SteamDetailPage) :
    List Record :=
  if (steamSearch sr).isEmpty then []
  else ((steamSearch sr).map (fun s => steamDetail (env s) s)).filterMap id

-- ## AnkerGames adapter and link resolver (src/scrapers/ankergames.py)

/-- One result card of the Anker search page: `card.find("a", href=True)`
(the anchor's `href`, present iff such an anchor exists) and `card.find("h3")`
(its text). -/
structure AnkerCard where
  anchorHref : Option String
  h3text : Option String
deriving DecidableEq, Repr

/-- Outcome of the Anker search GET. -/
inductive AnkerSearchResp where
  | netErr
  | ok (cards : List AnkerCard)
deriving DecidableEq, Repr

/-- `ankergames.search_game_sync`: cards with both a link and an `h3` title
become stubs; any raised error degrades to `[]` (nothing in the card loop can
raise). -/
def ankerSearch : AnkerSearchResp → List Stub
  | AnkerSearchResp.netErr => []
  | AnkerSearchResp.ok cards =>
    cards.filterMap fun c =>
      match c.anchorHref, c.h3text with
      | some h, some t => some ⟨pyStrip t, h, "AnkerGames"⟩
      | _, _ => none

/-- Body of a successful `/generate-download-url/{id}` JSON response:
`success` is the truthiness of `data.get("success")`, `download_url` is
`data.get("download_url")` (absent/null = `none`). -/
structure AnkerGenBody where
  success : Bool
  download_url : Option String
deriving DecidableEq, Repr

/-- Outcome of the resolver's POST: `err` = the request raised;
`ok status body` = a response with that HTTP status, whose `resp.json()`
either raised (`body = none`) or parsed (`body = some _`). -/
inductive PostResult where
  | err
  | ok (status : Nat) (body : Option AnkerGenBody)
deriving DecidableEq, Repr

/-- The interstitial waiting-room page: its raw HTML (scanned by the regex
strategy) and the `href` of an `<a aria-label="Download Now">` if such an
anchor exists (the fallback strategy). -/
structure AnkerWaitPage where
  html : String
  downloadNowHref : Option String
deriving DecidableEq, Repr

/-- Outcome of the resolver's GET of the intermediate page. -/
inductive GetResult where
  | err
  | ok (page : AnkerWaitPage)
deriving Repr

/-- The resolver's network environment: what each POST/GET returns. -/
structure AnkerNet where
  post : String → PostResult
  get : String → GetResult

/-- The literal-plus-capture shape of `downloadPage\('([^']+)'`. -/
def dlPagePat : List Char := "downloadPage(".data ++ [sqChar]

/-- The literal-plus-capture shape of `generateDownloadUrl\((\d+)\)`. -/
def genUrlPat : List Char := "generateDownloadUrl(".data

/-- Step FinalURLExtracted of `_resolve_download_link`: first the
`downloadPage('...')` regex with percent-decoding of the capture, then the
"Download Now" anchor (returned only if its `href` is truthy); falling off
the end of the `try` block returns `None`. -/
def extractFinalLink (page : AnkerWaitPage) : Option String :=
  match scanCapture dlPagePat (fun c => c ≠ sqChar) sqChar page.html.data with
  | some cap => some (String.mk (pyUnquoteAux cap))
  | none =>
    match page.downloadNowHref with
    | some h => if h = "" then none else some h
    | none => none

/-- `ankergames._resolve_download_link`: fails closed on a falsy CSRF token;
then POST (status must be 200, JSON must parse, `success` must be truthy,
`download_url` of `None` makes the follow-up GET raise), GET the intermediate
page, extract.  Every raise inside the `try` returns `None`.  (The CSRF token
travels as the `X-CSRF-TOKEN` header; the model keeps its value and
truthiness, not the header encoding.) -/
def resolveDownloadLink (csrf : Option String) (endpoint : String)
    (net : AnkerNet) : Option String :=
  if pyTruthyOptStr csrf = false then none
  else
    match net.post endpoint with
    | PostResult.err => none
    | PostResult.ok status body =>
      if status ≠ 200 then none
      else
        match body with
        | none => none
        | some data =>
          if data.success = false then none
          else
            match data.download_url with
            | none => none
            | some iurl =>
              match net.get iurl with
              | GetResult.err => none
              | GetResult.ok page => extractFinalLink page

/-- One `<li>` of the `#download-modal` list: the text of `item.find("div")`
(the provider label; no div ⇒ host defaults to "Direct") and the
`@click.prevent` attribute of the item's button, if the button exists. -/
structure AnkerDLItem where
  providerText : Option String
  clickAttr : Option String
deriving DecidableEq, Repr

/-- Host label of a modal item. -/
def ankerItemHost (it : AnkerDLItem) : String :=
  match it.providerText with
  | some t => cleanText t
  | none => "Direct"

/-- The numeric id captured from `generateDownloadUrl(<digits>)`. -/
def ankerClickId (attr : String) : Option (List Char) :=
  scanCapture genUrlPat Char.isDigit ')' attr.data

/-- The per-item negotiation endpoint `{BASE_URL}/generate-download-url/{id}`. -/
def ankerEndpoint (digits : List Char) : String :=
  "https://ankergames.net/generate-download-url/" ++ String.mk digits

/-- The per-item body of the downloads loop in `ankergames.get_game_details`:
items without a button or without an id-bearing click handler are skipped;
resolution is attempted only when `"Direct" in host`; the appended dict is
`{host, url: final_url if final_url else endpoint, resolved: bool(final_url)}`
(Python truthiness: an empty-string `final_url` also falls back). -/
def ankerMkEntry (host endpoint : String) (finalUrl : Option String) :
    DownloadEntry :=
  match finalUrl with
  | some s =>
    if s = "" then { host := host, url := some endpoint, resolved := some false, status := none }
    else { host := host, url := some s, resolved := some true, status := none }
  | none => { host := host, url := some endpoint, resolved := some false, status := none }

def ankerBuildItem (csrf : Option String) (net : AnkerNet) (it : AnkerDLItem) :
    Option DownloadEntry :=
  match it.clickAttr with
  | none => none
  | some attr =>
    match ankerClickId attr with
    | none => none
    | some digits =>
      some (ankerMkEntry (ankerItemHost it) (ankerEndpoint digits)
        (if strContains (ankerItemHost it) "Direct" = true then
          resolveDownloadLink csrf (ankerEndpoint digits) net
        else none))

/-- An Anker detail page, restricted to what the claims read: the CSRF meta
token (`none` = meta tag or its `content` attribute missing) and the
`#download-modal` items (`[]` also covers a missing modal).  The remaining
extractions (image, metadata grid, system requirements) are guarded lookups
that cannot raise. -/
structure AnkerDetailPage where
  csrf : Option String
  modalItems : List AnkerDLItem
deriving DecidableEq, Repr

/-- `ankergames.get_game_details`: a raised page GET (`resp = none`) returns
`None`; otherwise the record spreads `**basic_data` and adds the resolved
downloads list. -/
def ankerDetail (resp : Option AnkerDetailPage) (net : AnkerNet) (stub : Stub) :
    Option Record :=
  match resp with
  | none => none
  | some page =>
    some { title := stub.title, source := stub.source, url := some stub.url,
           downloads := some (page.modalItems.filterMap (ankerBuildItem page.csrf net)) }

/-- `ankergames.run_scraper`: search, fan out detail fetches in stub order,
drop the `None`s. -/
def ankerRun (sr : AnkerSearchResp) (env : Stub → Option AnkerDetailPage)
    (net : AnkerNet) : List Record :=
  if (ankerSearch sr).isEmpty then []
  else ((ankerSearch sr).map (fun s => ankerDetail (env s) net s)).filterMap id

-- ## GameBounty adapter (src/scrapers/gamebounty.py)

/-- One element of the hydration payload's `initialGames` array, restricted to
the keys the scraper reads.  `none` = key absent (the scraper's `get` defaults
then apply). -/
structure GBGame where
  title : Option String
  slug : Option String
  banner : Option String
  version : Option String
  miniDescription : Option String
deriving DecidableEq, Repr

/-- The parsed `__NEXT_DATA__` JSON: `buildId` and
`props.pageProps.initialGames` (the chained `.get(..., {})` defaults make a
missing nesting level the empty list). -/
structure GBNext where
  buildId : Option String
  initialGames : List GBGame
deriving DecidableEq, Repr

/-- Outcome of the GameBounty homepage GET: `err` covers a raised request,
`raise_for_status` and a raising `json.loads`; `noScript` is a page without
the `__NEXT_DATA__` script tag. -/
inductive GBSearchResp where
  | err
  | noScript
  | ok (next : GBNext)
deriving DecidableEq, Repr

/-- A GameBounty stub: the dict built by `gamebounty.search_game_sync`
(it has no `"url"` key; detail addressing needs `slug` and `build_id`). -/
structure GBStub where
  title : String
  slug : Option String
  build_id : String
  cover_image : Option String
  version : Option String
  overview : Option String
deriving DecidableEq, Repr

/-- The title filter: `query.lower() in game.get("Title", "Unknown Title").lower()`. -/
def gbMatches (q : String) (g : GBGame) : Bool :=
  strContains (pyLower (g.title.getD "Unknown Title")) (pyLower q)

/-- The stub built for a matching game. -/
def gbStubOf (bid : String) (g : GBGame) : GBStub :=
  { title := g.title.getD "Unknown Title", slug := g.slug, build_id := bid,
    cover_image := g.banner, version := g.version,
    overview := g.miniDescription }

/-- `gamebounty.search_game_sync`: errors and a missing script yield `[]`;
a falsy `buildId` (absent or `""`) yields `[]`; otherwise one stub per
case-insensitive title match, in array order. -/
def gbSearch (q : String) : GBSearchResp → List GBStub
  | GBSearchResp.err => []
  | GBSearchResp.noScript => []
  | GBSearchResp.ok nd =>
    match nd.buildId with
    | none => []
    | some bid =>
      if bid = "" then []
      else (nd.initialGames.filter (gbMatches q)).map (gbStubOf bid)

/-- The build-scoped internal JSON-API URL constructed by
`gamebounty.get_game_details`
(`{BASE_URL}/_next/data/{build_id}/default/download/{slug}.json?slug={slug}`;
a `None` slug renders as the literal "None" in the f-string). -/
def gbDetailUrl (s : GBStub) : String :=
  "https://gamebounty.world/_next/data/" ++ s.build_id ++ "/default/download/"
    ++ pyFmtOpt s.slug ++ ".json?slug=" ++ pyFmtOpt s.slug

/-- One `links` element of a mirror: `url` and `status` keys (absent/null =
`none`). -/
structure GBLink where
  url : Option String
  status : Option String
deriving DecidableEq, Repr

/-- One element of the `mirrors` array. -/
structure GBMirror where
  name : Option String
  links : List GBLink
deriving DecidableEq, Repr

/-- A mirrors container (`customContainerInfo` / `containerInfo`). -/
structure GBContainer where
  mirrors : List GBMirror
deriving DecidableEq, Repr

/-- The post object (`pageProps.post` / `pageProps.serverPostData`),
restricted to what the claims read: whether a `"description"` key is present,
and the hrefs of the `<a href>` anchors BeautifulSoup finds in that
description HTML, in document order.  (The metadata and system-requirements
extractions of `get_game_details` are guarded and cannot raise.) -/
structure GBPost where
  hasDescription : Bool
  descriptionAnchors : List String
deriving DecidableEq, Repr

/-- The `pageProps` object with its two alternative post keys and two
alternative container keys.  `none` covers the key being absent as well as it
holding a falsy (empty) object — Python's `a or b or {}` chain. -/
structure GBProps where
  post : Option GBPost
  serverPostData : Option GBPost
  customContainerInfo : Option GBContainer
  containerInfo : Option GBContainer
deriving DecidableEq, Repr

/-- `props.get("post") or props.get("serverPostData") or {}`. -/
def gbSelectPost (p : GBProps) : GBPost :=
  match p.post with
  | some x => x
  | none =>
    match p.serverPostData with
    | some x => x
    | none => { hasDescription := false, descriptionAnchors := [] }

/-- `props.get("customContainerInfo") or props.get("containerInfo") or {}`
(a missing `mirrors` key in the chosen container defaults to `[]`). -/
def gbSelectContainer (p : GBProps) : GBContainer :=
  match p.customContainerInfo with
  | some x => x
  | none =>
    match p.containerInfo with
    | some x => x
    | none => { mirrors := [] }

/-- The mirrors loop: one entry per link of each mirror, host =
`mirror.get("name", "Unknown")`, status = `link.get("status", "unknown")`,
no `"resolved"` key.  (The `if mirrors:` guard in the source is redundant —
an empty array loops zero times.) -/
def gbMirrorEntries : List GBMirror → List DownloadEntry
  | [] => []
  | m :: rest =>
    m.links.map (fun l => { host := m.name.getD "Unknown", url := l.url,
                            resolved := none,
                            status := some (l.status.getD "unknown") })
      ++ gbMirrorEntries rest

/-- The fallback loop over the description's anchors: hrefs containing the
substring "steam" are excluded, the rest get host "External" (and neither a
`"resolved"` nor a `"status"` key). -/
def gbFallback (anchors : List String) : List DownloadEntry :=
  anchors.filterMap fun href =>
    if strContains href "steam" = true then none
    else some { host := "External", url := some href, resolved := none,
                status := none }

/-- The record built on the success path of `gamebounty.get_game_details`:
mirrors first; if they produced nothing and the post has a `"description"`
key, the anchor fallback. -/
def gbDownloads (p : GBProps) : List DownloadEntry :=
  if (gbMirrorEntries (gbSelectContainer p).mirrors).isEmpty
      && (gbSelectPost p).hasDescription then
    gbFallback (gbSelectPost p).descriptionAnchors
  else gbMirrorEntries (gbSelectContainer p).mirrors

def gbBuildRecord (s : GBStub) (p : GBProps) : Record :=
  { title := s.title, source := "GameBounty",
    url := some ("https://gamebounty.world/download/" ++ pyFmtOpt s.slug),
    downloads := some (gbDownloads p) }

/-- The soft-fail value of `gamebounty.get_game_details`: the stub dict is
returned unchanged — so it has no `"url"` and no `"downloads"` key. -/
def gbStubRecord (s : GBStub) : Record :=
  { title := s.title, source := "GameBounty", url := none, downloads := none }

/-- Outcome of the detail API GET: `raise` = the request (or anything else in
the `try`) raised; `http status body` = a response with that status, whose
`response.json()` raised (`body = none`) or parsed into `pageProps`. -/
inductive GBDetailOutcome where
  | raise
  | http (status : Nat) (body : Option GBProps)
deriving Repr

/-- `gamebounty.get_game_details`: non-200 status, a JSON parse error or any
raise all return the basic stub data; otherwise the full record is built. -/
def gbDetail (s : GBStub) (out : GBDetailOutcome) : Record :=
  match out with
  | GBDetailOutcome.raise => gbStubRecord s
  | GBDetailOutcome.http status body =>
    if status ≠ 200 then gbStubRecord s
    else
      match body with
      | none => gbStubRecord s
      | some props => gbBuildRecord s props

/-- `gamebounty.run_scraper`: search, fan out detail fetches in stub order.
The final `[x for x in detailed_data if x]` filter is vacuous because
`get_game_details` always returns a non-empty (truthy) dict. -/
def gbRun (q : String) (sr : GBSearchResp) (env : GBStub → GBDetailOutcome) :
    List Record :=
  if (gbSearch q sr).isEmpty then []
  else (gbSearch q sr).map (fun s => gbDetail s (env s))

-- ## Aggregator (src/main.py, search_command)

/-- The `isinstance(r, list)` filter applied to each element of
`asyncio.gather(*tasks, return_exceptions=True)`: a pipeline that raised
contributes nothing. -/
def okList (r : Except Unit (List Record)) : List Record :=
  match r with
  | Except.ok l => l
  | Except.error _ => []

/-- The aggregation core of `main.search_command` (and `inline_query`): the
three pipelines run on the query, exceptions are materialized by
`return_exceptions=True`, and the surviving lists are concatenated in the
fixed task order Steam, Anker, Bounty. -/
def search_command_core (q : String)
    (p1 p2 p3 : String → Except Unit (List Record)) : List Record :=
  okList (p1 q) ++ okList (p2 q) ++ okList (p3 q)

/-- The whole engine: `search_command_core` applied to the three `run_scraper`
pipelines (which, in the model, never raise — the `Except` layer records that
even a hypothetical raise would be contained). -/
def fullSearch (q : String)
    (ssr : String → SteamSearchResp) (senv : Stub → Option SteamDetailPage)
    (asr : String → AnkerSearchResp) (aenv : Stub → Option AnkerDetailPage)
    (anet : AnkerNet)
    (gsr : String → GBSearchResp) (genv : GBStub → GBDetailOutcome) :
    List Record :=
  search_command_core q
    (fun s => Except.ok (steamRun (ssr s) senv))
    (fun s => Except.ok (ankerRun (asr s) aenv anet))
    (fun s => Except.ok (gbRun s (gsr s) genv))

-- ## Spec-side definition and concrete fixtures

/-- Host part of a URL: what stands between the scheme separator "://" and
the next "/". -/
def dropThroughSchemeSep : List Char → List Char
  | [] => []
  | c :: cs =>
    if charsStartWith "://".data (c :: cs) then cs.drop 2
    else dropThroughSchemeSep cs

def urlHost (u : String) : String :=
  String.mk ((dropThroughSchemeSep u.data).takeWhile (fun c => c ≠ '/'))

/-- Modelled from the spec: the GameBounty fallback "exclud[es] links
pointing at the storefront domain of the site".  The spec does not pin the
domain down, so both plausible readings are covered — the GameBounty site
itself, and the Steam storefront the metadata links to; a URL pointing at
neither certainly does not point at "the storefront domain of the site". -/
def specPointsAtStorefront (href : String) : Bool :=
  urlHost href = "gamebounty.world" || urlHost href = "store.steampowered.com"

/-- An Anker network environment in which every request raises. -/
def netDead : AnkerNet := ⟨fun _ => PostResult.err, fun _ => GetResult.err⟩

/-- An Anker network environment answering every POST with a 404 whose body
does not parse. -/
def net404 : AnkerNet := ⟨fun _ => PostResult.ok 404 none, fun _ => GetResult.err⟩

/-- A waiting-room page body embedding a downloadPage call of the percent-encoded final URL. -/
def waitHtml : String :=
  "<html>foo downloadPage(" ++ sqStr ++ "http%3A%2F%2Ffinal" ++ sqStr ++ ") bar</html>"

/-- The mocked network of the Anker resolution test of the spec: the POST to the
id-42 endpoint answers `{"success": true, "download_url": "http://x/wait"}`
and the wait page embeds the percent-encoded final URL. -/
def net42 : AnkerNet :=
  { post := fun u =>
      if u = "https://ankergames.net/generate-download-url/42" then
        PostResult.ok 200 (some ⟨true, some "http://x/wait"⟩)
      else PostResult.err,
    get := fun u =>
      if u = "http://x/wait" then GetResult.ok ⟨waitHtml, none⟩
      else GetResult.err }

/-- A modal item labeled "Direct" carrying download id 42. -/
def itemDirect42 : AnkerDLItem := ⟨some "Direct", some "generateDownloadUrl(42)"⟩

/-- The GameBounty fixture game of the spec,
`{Title: "Foo Bar", Slug: "foo-bar", Banner: "http://x/img.png"}`. -/
def fooGame : GBGame := ⟨some "Foo Bar", some "foo-bar", some "http://x/img.png", none, none⟩

/-- The stub that fixture search is expected to produce under buildId "abc123". -/
def fooStub : GBStub := ⟨"Foo Bar", some "foo-bar", "abc123", some "http://x/img.png", none, none⟩

/-- A Steam search response with one well-formed item titled "T". -/
def cexSteamResp : SteamSearchResp :=
  SteamSearchResp.ok [⟨some ⟨some ⟨"T", some "http://page"⟩⟩⟩]

/-- A Steam detail environment whose page has one download button with empty
text (so the host of the built entry is the empty string). -/
def cexSteamEnv : Stub → Option SteamDetailPage :=
  fun _ => some ⟨[⟨"", some "http://dl"⟩]⟩

/-- A GameBounty homepage with buildId "b1" and one game titled "G". -/
def cexGbResp : GBSearchResp :=
  GBSearchResp.ok ⟨some "b1", [⟨some "G", some "g", none, none, none⟩]⟩

/-- A GameBounty detail environment answering 500 (soft-fail path). -/
def cexGbEnv : GBStub → GBDetailOutcome := fun _ => GBDetailOutcome.http 500 none

/-- A GameBounty `pageProps` with no mirrors and a description holding two
anchors: one whose href merely mentions "steam" in its file name, one clean. -/
def cexFallbackProps : GBProps :=
  ⟨some ⟨true, ["http://example.com/files/steam-rip.zip", "http://mirror.example/x.zip"]⟩,
   none, none, none⟩

-- ## Helper lemmas shared by the claim theorems

theorem steamItemStubs_source (h4 : SteamH4) :
    ∀ s ∈ steamItemStubs h4, s.source = "SteamUnderground" := by
  intro s hs
  unfold steamItemStubs at hs
  split at hs
  · split at hs
    · split at hs
      · simp only [List.mem_singleton] at hs
        subst hs; rfl
      · simp at hs
    · simp at hs
  · simp at hs

theorem steamCollect_error_of_bad (items : List SteamItem)
    (hbad : ∃ it ∈ items, it.h4 = none) :
    steamCollect items = Except.error () := by
  induction items with
  | nil => simp at hbad
  | cons it rest ih =>
    obtain ⟨x, hx, hnone⟩ := hbad
    rcases List.mem_cons.mp hx with heq | hmem
    · subst heq
      simp only [steamCollect, hnone]
    · simp only [steamCollect]
      cases hh : it.h4 with
      | none => rfl
      | some h4 => rw [ih ⟨x, hmem, hnone⟩]

theorem steamCollect_ok_source (items : List SteamItem) (l : List Stub)
    (h : steamCollect items = Except.ok l) :
    ∀ s ∈ l, s.source = "SteamUnderground" := by
  induction items generalizing l with
  | nil =>
    simp only [steamCollect] at h
    cases h
    simp
  | cons it rest ih =>
    simp only [steamCollect] at h
    split at h
    · cases h
    · split at h
      · cases h
      · next tl htl =>
        injection h with h
        subst h
        intro s hs
        rcases List.mem_append.mp hs with hmem | hmem
        · exact steamItemStubs_source _ s hmem
        · exact ih tl htl s hmem

theorem steamSearch_source (sr : SteamSearchResp) :
    ∀ s ∈ steamSearch sr, s.source = "SteamUnderground" := by
  intro s hs
  cases sr with
  | netErr => simp [steamSearch] at hs
  | badJson => simp [steamSearch] at hs
  | ok items =>
    simp only [steamSearch] at hs
    split at hs
    · simp at hs
    · next l hc => exact steamCollect_ok_source items l hc s hs

theorem steamBuildDownloads_ok_shape (btns : List SteamAnchor)
    (ds : List DownloadEntry) (h : steamBuildDownloads btns = Except.ok ds) :
    ∀ e ∈ ds, e.resolved = none ∧ e.status = none ∧ e.url.isSome = true := by
  induction btns generalizing ds with
  | nil =>
    simp only [steamBuildDownloads] at h
    cases h
    simp
  | cons a rest ih =>
    simp only [steamBuildDownloads] at h
    split at h
    · cases h
    · split at h
      · cases h
      · next tl htl =>
        injection h with h
        subst h
        intro e he
        rcases List.mem_cons.mp he with heq | hmem
        · subst heq; exact ⟨rfl, rfl, rfl⟩
        · exact ih tl htl e hmem

theorem steamDetail_some_facts (resp : Option SteamDetailPage) (stub : Stub)
    (r : Record) (h : steamDetail resp stub = some r) :
    r.title = stub.title ∧ r.source = stub.source ∧
      ∃ ds, r.downloads = some ds ∧
        ∀ e ∈ ds, e.resolved = none ∧ e.status = none ∧ e.url.isSome = true := by
  unfold steamDetail at h
  split at h
  · cases h
  · split at h
    · cases h
    · next dls hdls =>
      injection h with h
      subst h
      exact ⟨rfl, rfl, dls, rfl, steamBuildDownloads_ok_shape _ _ hdls⟩

theorem steamRun_eq (sr : SteamSearchResp) (env : Stub → Option SteamDetailPage) :
    steamRun sr env
      = ((steamSearch sr).map (fun s => steamDetail (env s) s)).filterMap id := by
  unfold steamRun
  cases h : steamSearch sr with
  | nil => simp
  | cons a l => simp

theorem steamRun_facts (sr : SteamSearchResp)
    (env : Stub → Option SteamDetailPage) (r : Record) (h : r ∈ steamRun sr env) :
    r.source = "SteamUnderground" ∧
      ∃ ds, r.downloads = some ds ∧
        ∀ e ∈ ds, e.resolved = none ∧ e.status = none ∧ e.url.isSome = true := by
  rw [steamRun_eq] at h
  rw [List.mem_filterMap] at h
  obtain ⟨o, ho, hid⟩ := h
  rw [List.mem_map] at ho
  obtain ⟨s, hs, hos⟩ := ho
  subst hos
  simp only [id_eq] at hid
  obtain ⟨_, hsrc, hds⟩ := steamDetail_some_facts (env s) s r hid
  exact ⟨hsrc.trans (steamSearch_source sr s hs), hds⟩

theorem ankerSearch_source (sr : AnkerSearchResp) :
    ∀ s ∈ ankerSearch sr, s.source = "AnkerGames" := by
  intro s hs
  cases sr with
  | netErr => simp [ankerSearch] at hs
  | ok cards =>
    simp only [ankerSearch] at hs
    rw [List.mem_filterMap] at hs
    obtain ⟨c, _, hc⟩ := hs
    revert hc
    split
    · intro hc; injection hc with hc; subst hc; rfl
    · intro hc; cases hc

theorem ankerMkEntry_shape (host endpoint : String) (finalUrl : Option String) :
    (ankerMkEntry host endpoint finalUrl).resolved.isSome = true ∧
      (ankerMkEntry host endpoint finalUrl).status = none ∧
      (ankerMkEntry host endpoint finalUrl).url.isSome = true ∧
      (ankerMkEntry host endpoint finalUrl).host = host := by
  unfold ankerMkEntry
  split
  · split <;> exact ⟨rfl, rfl, rfl, rfl⟩
  · exact ⟨rfl, rfl, rfl, rfl⟩

theorem ankerBuildItem_some_shape (csrf : Option String) (net : AnkerNet)
    (it : AnkerDLItem) (e : DownloadEntry)
    (h : ankerBuildItem csrf net it = some e) :
    e.resolved.isSome = true ∧ e.status = none ∧ e.url.isSome = true := by
  unfold ankerBuildItem at h
  split at h
  · cases h
  · split at h
    · cases h
    · injection h with h
      subst h
      obtain ⟨h1, h2, h3, _⟩ := ankerMkEntry_shape _ _ _
      exact ⟨h1, h2, h3⟩

theorem ankerDetail_some_facts (resp : Option AnkerDetailPage) (net : AnkerNet)
    (stub : Stub) (r : Record) (h : ankerDetail resp net stub = some r) :
    r.title = stub.title ∧ r.source = stub.source ∧
      ∃ ds, r.downloads = some ds ∧
        ∀ e ∈ ds, e.resolved.isSome = true ∧ e.status = none ∧ e.url.isSome = true := by
  unfold ankerDetail at h
  split at h
  · cases h
  · next page =>
    injection h with h
    subst h
    refine ⟨rfl, rfl, _, rfl, ?_⟩
    intro e he
    rw [List.mem_filterMap] at he
    obtain ⟨it, _, hit⟩ := he
    exact ankerBuildItem_some_shape _ _ _ _ hit

theorem ankerRun_eq (sr : AnkerSearchResp) (env : Stub → Option AnkerDetailPage)
    (net : AnkerNet) :
    ankerRun sr env net
      = ((ankerSearch sr).map (fun s => ankerDetail (env s) net s)).filterMap id := by
  unfold ankerRun
  cases h : ankerSearch sr with
  | nil => simp
  | cons a l => simp

theorem ankerRun_facts (sr : AnkerSearchResp)
    (env : Stub → Option AnkerDetailPage) (net : AnkerNet) (r : Record)
    (h : r ∈ ankerRun sr env net) :
    r.source = "AnkerGames" ∧
      ∃ ds, r.downloads = some ds ∧
        ∀ e ∈ ds, e.resolved.isSome = true ∧ e.status = none ∧ e.url.isSome = true := by
  rw [ankerRun_eq] at h
  rw [List.mem_filterMap] at h
  obtain ⟨o, ho, hid⟩ := h
  rw [List.mem_map] at ho
  obtain ⟨s, hs, hos⟩ := ho
  subst hos
  simp only [id_eq] at hid
  obtain ⟨_, hsrc, hds⟩ := ankerDetail_some_facts (env s) net s r hid
  exact ⟨hsrc.trans (ankerSearch_source sr s hs), hds⟩

theorem gbMirrorEntries_shape (ms : List GBMirror) :
    ∀ e ∈ gbMirrorEntries ms, e.resolved = none ∧ e.status.isSome = true := by
  induction ms with
  | nil => simp [gbMirrorEntries]
  | cons m rest ih =>
    intro e he
    simp only [gbMirrorEntries] at he
    rcases List.mem_append.mp he with hmem | hmem
    · rw [List.mem_map] at hmem
      obtain ⟨l, _, hl⟩ := hmem
      subst hl
      exact ⟨rfl, rfl⟩
    · exact ih e hmem

theorem gbFallback_shape (anchors : List String) :
    ∀ e ∈ gbFallback anchors,
      e.resolved = none ∧ e.status = none ∧ e.host = "External" ∧ e.url.isSome = true := by
  intro e he
  unfold gbFallback at he
  rw [List.mem_filterMap] at he
  obtain ⟨href, _, hh⟩ := he
  revert hh
  split
  · intro hh; cases hh
  · intro hh; injection hh with hh; subst hh; exact ⟨rfl, rfl, rfl, rfl⟩

theorem gbDownloads_resolved (p : GBProps) :
    ∀ e ∈ gbDownloads p, e.resolved = none := by
  intro e he
  unfold gbDownloads at he
  split at he
  · exact (gbFallback_shape _ e he).1
  · exact (gbMirrorEntries_shape _ e he).1

theorem gbDetail_facts (s : GBStub) (o : GBDetailOutcome) :
    (gbDetail s o).source = "GameBounty" ∧ (gbDetail s o).title = s.title ∧
      ∀ ds, (gbDetail s o).downloads = some ds → ∀ e ∈ ds, e.resolved = none := by
  unfold gbDetail
  split
  · exact ⟨rfl, rfl, fun ds h => by cases h⟩
  · split
    · exact ⟨rfl, rfl, fun ds h => by cases h⟩
    · split
      · exact ⟨rfl, rfl, fun ds h => by cases h⟩
      · refine ⟨rfl, rfl, fun ds h => ?_⟩
        injection h with h
        subst h
        exact gbDownloads_resolved _

theorem gbRun_eq (q : String) (sr : GBSearchResp) (env : GBStub → GBDetailOutcome) :
    gbRun q sr env = (gbSearch q sr).map (fun s => gbDetail s (env s)) := by
  unfold gbRun
  cases h : gbSearch q sr with
  | nil => simp
  | cons a l => simp

theorem gbRun_facts (q : String) (sr : GBSearchResp)
    (env : GBStub → GBDetailOutcome) (r : Record) (h : r ∈ gbRun q sr env) :
    r.source = "GameBounty" ∧
      ∀ ds, r.downloads = some ds → ∀ e ∈ ds, e.resolved = none := by
  rw [gbRun_eq] at h
  rw [List.mem_map] at h
  obtain ⟨s, _, hs⟩ := h
  subst hs
  obtain ⟨h1, _, h3⟩ := gbDetail_facts s (env s)
  exact ⟨h1, h3⟩

theorem fullSearch_eq (q : String)
    (ssr : String → SteamSearchResp) (senv : Stub → Option SteamDetailPage)
    (asr : String → AnkerSearchResp) (aenv : Stub → Option AnkerDetailPage)
    (anet : AnkerNet)
    (gsr : String → GBSearchResp) (genv : GBStub → GBDetailOutcome) :
    fullSearch q ssr senv asr aenv anet gsr genv
      = steamRun (ssr q) senv ++ ankerRun (asr q) aenv anet
          ++ gbRun q (gsr q) genv := rfl

-- ## Claim theorems

/-- Claim C1, counterexample.  The Anker search yields one stub, its detail
fetch hits an irrecoverable network error, and the adapter returns the EMPTY
list: the stub is omitted rather than turned into a placeholder Record, so
the claimed "still returns one Record for that stub, never omitted" fails on
the code (`get_game_details` returns `None` and `run_scraper` filters the
`None`s out). -/
theorem anker_detail_error_drops_stub_cex :
    ankerSearch (AnkerSearchResp.ok [⟨some "https://ankergames.net/g/x", some "X"⟩])
        = [⟨"X", "https://ankergames.net/g/x", "AnkerGames"⟩]
      ∧ ankerRun (AnkerSearchResp.ok [⟨some "https://ankergames.net/g/x", some "X"⟩])
          (fun _ => none) netDead = [] :=
  ⟨by decide, by decide⟩

/-- Claim C1, amended.  A detail fetch that hits an irrecoverable error
returns `None` for the Steam and Anker adapters, and the stub is then
filtered out of the adapter result list; only the GameBounty adapter fails
soft, returning the stub data unchanged (title preserved) as a record with
no downloads key. -/
theorem detail_error_handling_per_adapter (s : Stub) (net : AnkerNet)
    (env : Stub → Option AnkerDetailPage) (gs : GBStub) :
    steamDetail none s = none
      ∧ ankerDetail none net s = none
      ∧ (∀ sr senv, steamRun sr senv
          = ((steamSearch sr).map (fun st => steamDetail (senv st) st)).filterMap id)
      ∧ (∀ sr, ankerRun sr env net
          = ((ankerSearch sr).map (fun st => ankerDetail (env st) net st)).filterMap id)
      ∧ gbDetail gs GBDetailOutcome.raise = gbStubRecord gs
      ∧ (gbStubRecord gs).title = gs.title
      ∧ (gbStubRecord gs).downloads = none :=
  ⟨rfl, rfl, fun sr senv => steamRun_eq sr senv,
   fun sr => ankerRun_eq sr env net, rfl, rfl, rfl⟩

/-- Claim C2.  The aggregation core is a total function into lists (so it
never raises, for the empty query as for any other); a pipeline that raises
(`Except.error`, materialized by `asyncio.gather(..., return_exceptions=True)`
and dropped by the `isinstance(r, list)` filter) contributes exactly the
empty list while the other two pipelines' contributions are unchanged, and
total failure of all three yields `[]`. -/
theorem aggregate_search_total_and_isolating (q : String)
    (p1 p2 p3 : String → Except Unit (List Record)) :
    search_command_core q p1 p2 p3
        = okList (p1 q) ++ okList (p2 q) ++ okList (p3 q)
      ∧ okList (Except.error () : Except Unit (List Record)) = []
      ∧ search_command_core q (fun _ => Except.error ()) p2 p3
          = okList (p2 q) ++ okList (p3 q)
      ∧ search_command_core q p1 (fun _ => Except.error ()) p3
          = okList (p1 q) ++ okList (p3 q)
      ∧ search_command_core q p1 p2 (fun _ => Except.error ())
          = okList (p1 q) ++ okList (p2 q)
      ∧ search_command_core q (fun _ => Except.error ()) (fun _ => Except.error ())
          (fun _ => Except.error ()) = [] := by
  refine ⟨rfl, rfl, ?_, ?_, ?_, rfl⟩ <;> simp [search_command_core, okList]

/-- Claim C5.  The aggregate list is exactly the concatenation of the three
pipeline results in the fixed order Steam, Anker, Bounty, and each pipeline
result is the detail results mapped over that source's stub list in stub
insertion order (with the failed ones dropped for Steam/Anker) — the model's
join points (`asyncio.gather`) are order-preserving by construction, which is
exactly the guarantee independent of real-time completion order. -/
theorem aggregate_order_source_major_stub_minor (q : String)
    (ssr : String → SteamSearchResp) (senv : Stub → Option SteamDetailPage)
    (asr : String → AnkerSearchResp) (aenv : Stub → Option AnkerDetailPage)
    (anet : AnkerNet)
    (gsr : String → GBSearchResp) (genv : GBStub → GBDetailOutcome) :
    fullSearch q ssr senv asr aenv anet gsr genv
        = steamRun (ssr q) senv ++ ankerRun (asr q) aenv anet
            ++ gbRun q (gsr q) genv
      ∧ steamRun (ssr q) senv
          = ((steamSearch (ssr q)).map (fun s => steamDetail (senv s) s)).filterMap id
      ∧ ankerRun (asr q) aenv anet
          = ((ankerSearch (asr q)).map (fun s => ankerDetail (aenv s) anet s)).filterMap id
      ∧ gbRun q (gsr q) genv
          = (gbSearch q (gsr q)).map (fun s => gbDetail s (genv s)) :=
  ⟨fullSearch_eq q ssr senv asr aenv anet gsr genv,
   steamRun_eq (ssr q) senv, ankerRun_eq (asr q) aenv anet,
   gbRun_eq q (gsr q) genv⟩

/-- Claim C10.  If any single `li.small-post` item of a Steam search response
lacks its `h4.title` element, the `AttributeError` reaches the function-level
handler and the whole search returns `[]`: every other well-formed item in
the same response is discarded along with the malformed one. -/
theorem steam_malformed_item_discards_response (items : List SteamItem)
    (it : SteamItem) (hmem : it ∈ items) (hbad : it.h4 = none) :
    steamSearch (SteamSearchResp.ok items) = [] := by
  simp only [steamSearch]
  rw [steamCollect_error_of_bad items ⟨it, hmem, hbad⟩]

/-- Claim C10, witness: a response with one well-formed item and one item
without `h4.title` yields the empty result list. -/
theorem steam_malformed_item_discards_response_witness :
    steamSearch (SteamSearchResp.ok
      [⟨some ⟨some ⟨"Good Game", some "http://good"⟩⟩⟩, ⟨none⟩]) = [] :=
  steam_malformed_item_discards_response
    [⟨some ⟨some ⟨"Good Game", some "http://good"⟩⟩⟩, ⟨none⟩]
    ⟨none⟩ (by decide) rfl

theorem ankerBuildItem_eq (csrf : Option String) (net : AnkerNet)
    (it : AnkerDLItem) (attr : String) (digits : List Char)
    (hattr : it.clickAttr = some attr) (hid : ankerClickId attr = some digits) :
    ankerBuildItem csrf net it
      = some (ankerMkEntry (ankerItemHost it) (ankerEndpoint digits)
          (if strContains (ankerItemHost it) "Direct" = true then
            resolveDownloadLink csrf (ankerEndpoint digits) net
          else none)) := by
  simp only [ankerBuildItem, hattr, hid]

theorem resolveDownloadLink_csrf_falsy (csrf : Option String) (ep : String)
    (net : AnkerNet) (h : pyTruthyOptStr csrf = false) :
    resolveDownloadLink csrf ep net = none := by
  unfold resolveDownloadLink
  rw [h]
  simp

theorem resolveDownloadLink_post_err (csrf : Option String) (ep : String)
    (net : AnkerNet) (h : net.post ep = PostResult.err) :
    resolveDownloadLink csrf ep net = none := by
  unfold resolveDownloadLink
  rw [h]
  by_cases hc : pyTruthyOptStr csrf = false <;> simp [hc]

theorem resolveDownloadLink_bad_status (csrf : Option String) (ep : String)
    (net : AnkerNet) (status : Nat) (body : Option AnkerGenBody)
    (h : net.post ep = PostResult.ok status body) (hs : status ≠ 200) :
    resolveDownloadLink csrf ep net = none := by
  unfold resolveDownloadLink
  rw [h]
  by_cases hc : pyTruthyOptStr csrf = false <;> simp [hc, hs]

theorem resolveDownloadLink_no_success (csrf : Option String) (ep : String)
    (net : AnkerNet) (durl : Option String)
    (h : net.post ep = PostResult.ok 200 (some ⟨false, durl⟩)) :
    resolveDownloadLink csrf ep net = none := by
  unfold resolveDownloadLink
  rw [h]
  by_cases hc : pyTruthyOptStr csrf = false <;> simp [hc]

theorem filterMap_middle {α β : Type} (f : α → Option β) (pre post : List α)
    (x : α) :
    (pre ++ x :: post).filterMap f
      = pre.filterMap f ++ ((f x).toList ++ post.filterMap f) := by
  rw [List.filterMap_append]
  cases h : f x <;> simp [h]

/-- Claim C3.  For a modal item carrying a download id: when its host label
does not contain "Direct", the entry is kept as an unresolved link to the
per-item negotiation endpoint and no resolution is attempted (the result does
not depend on the network environment at all); when resolution fails —
falsy CSRF token, raised POST, non-200 status, `success` not true (the JSON
parse failure and extraction failure cases are the `body = none` and
`extractFinalLink = none` branches of `resolveDownloadLink`) — the entry is
likewise kept with `resolved = false` and `url` = the endpoint; and the
downloads list is a per-item `filterMap`, so one item's failure leaves every
other item's entry unchanged. -/
theorem anker_item_resolution_selective_failsafe (csrf : Option String)
    (net net2 : AnkerNet) (it : AnkerDLItem) (attr : String) (digits : List Char)
    (hattr : it.clickAttr = some attr) (hid : ankerClickId attr = some digits) :
    (strContains (ankerItemHost it) "Direct" = false →
        ankerBuildItem csrf net it
            = some { host := ankerItemHost it, url := some (ankerEndpoint digits),
                     resolved := some false, status := none }
          ∧ ankerBuildItem csrf net it = ankerBuildItem csrf net2 it)
      ∧ (resolveDownloadLink csrf (ankerEndpoint digits) net = none →
          ankerBuildItem csrf net it
            = some { host := ankerItemHost it, url := some (ankerEndpoint digits),
                     resolved := some false, status := none })
      ∧ (pyTruthyOptStr csrf = false →
          resolveDownloadLink csrf (ankerEndpoint digits) net = none)
      ∧ (net.post (ankerEndpoint digits) = PostResult.err →
          resolveDownloadLink csrf (ankerEndpoint digits) net = none)
      ∧ (∀ status body, net.post (ankerEndpoint digits) = PostResult.ok status body →
          status ≠ 200 → resolveDownloadLink csrf (ankerEndpoint digits) net = none)
      ∧ (∀ durl, net.post (ankerEndpoint digits) = PostResult.ok 200 (some ⟨false, durl⟩) →
          resolveDownloadLink csrf (ankerEndpoint digits) net = none)
      ∧ (∀ pre post : List AnkerDLItem,
          (pre ++ it :: post).filterMap (ankerBuildItem csrf net)
            = pre.filterMap (ankerBuildItem csrf net)
                ++ ((ankerBuildItem csrf net it).toList
                    ++ post.filterMap (ankerBuildItem csrf net))) := by
  refine ⟨?_, ?_, fun h => resolveDownloadLink_csrf_falsy _ _ _ h,
          fun h => resolveDownloadLink_post_err _ _ _ h,
          fun st bd h hs => resolveDownloadLink_bad_status _ _ _ _ _ h hs,
          fun durl h => resolveDownloadLink_no_success _ _ _ _ h,
          fun pre post => filterMap_middle _ pre post it⟩
  · intro hnd
    rw [ankerBuildItem_eq csrf net it attr digits hattr hid,
        ankerBuildItem_eq csrf net2 it attr digits hattr hid]
    constructor
    · simp [hnd, ankerMkEntry]
    · simp [hnd]
  · intro hres
    rw [ankerBuildItem_eq csrf net it attr digits hattr hid]
    by_cases hd : strContains (ankerItemHost it) "Direct" = true
    · simp [hd, hres, ankerMkEntry]
    · simp [hd, ankerMkEntry]

/-- Claim C3, witness: with a live CSRF token but a dead network, an item
hosted "Mega" (no resolution attempt) and an item hosted "Direct" (failed
resolution) are both retained as unresolved links to their negotiation
endpoints. -/
theorem anker_item_resolution_selective_failsafe_witness :
    ankerBuildItem (some "abc") netDead ⟨some "Mega", some "generateDownloadUrl(7)"⟩
        = some { host := "Mega",
                 url := some "https://ankergames.net/generate-download-url/7",
                 resolved := some false, status := none }
      ∧ ankerBuildItem (some "abc") netDead itemDirect42
          = some { host := "Direct",
                   url := some "https://ankergames.net/generate-download-url/42",
                   resolved := some false, status := none } := by
  constructor
  · have h := anker_item_resolution_selective_failsafe (some "abc") netDead net404
      ⟨some "Mega", some "generateDownloadUrl(7)"⟩ "generateDownloadUrl(7)" ['7']
      rfl (by decide)
    exact ((h.1 (by decide)).1).trans (by decide)
  · have h := anker_item_resolution_selective_failsafe (some "abc") netDead net404
      itemDirect42 "generateDownloadUrl(42)" ['4', '2'] rfl (by decide)
    exact (h.2.1 (by decide)).trans (by decide)

/-- Claim C4.  Final-link extraction tries the `downloadPage(...)` script
regex first (its capture percent-decoded), falls back to the anchor labeled
"Download Now" only when the regex fails, and yields nothing when both fail;
and on the spec's concrete fixture — CSRF "abc", item id 42 labeled "Direct",
POST answering success with the wait page whose body embeds
downloadPage of "http%3A%2F%2Ffinal" — the resolved entry has
url = "http://final" and resolved = true. -/
theorem anker_final_link_two_strategies (page : AnkerWaitPage)
    (cap : List Char) (href : String) :
    (scanCapture dlPagePat (fun c => c ≠ sqChar) sqChar page.html.data = some cap →
        extractFinalLink page = some (String.mk (pyUnquoteAux cap)))
      ∧ (scanCapture dlPagePat (fun c => c ≠ sqChar) sqChar page.html.data = none →
          page.downloadNowHref = some href → href ≠ "" →
          extractFinalLink page = some href)
      ∧ (scanCapture dlPagePat (fun c => c ≠ sqChar) sqChar page.html.data = none →
          (page.downloadNowHref = none ∨ page.downloadNowHref = some "") →
          extractFinalLink page = none)
      ∧ resolveDownloadLink (some "abc") (ankerEndpoint ['4', '2']) net42
          = some "http://final"
      ∧ ankerBuildItem (some "abc") net42 itemDirect42
          = some ⟨"Direct", some "http://final", some true, none⟩ := by
  refine ⟨?_, ?_, ?_, by decide, by decide⟩
  · intro h
    unfold extractFinalLink
    rw [h]
  · intro h1 h2 h3
    unfold extractFinalLink
    rw [h1, h2]
    simp [h3]
  · intro h1 h2
    unfold extractFinalLink
    rw [h1]
    rcases h2 with h2 | h2 <;> simp [h2]

/-- Claim C4, witness: on the fixture wait page the regex strategy wins even
though a fallback anchor is present, and the capture is percent-decoded. -/
theorem anker_final_link_two_strategies_witness :
    extractFinalLink ⟨waitHtml, some "http://fallback"⟩ = some "http://final" := by
  have h := anker_final_link_two_strategies ⟨waitHtml, some "http://fallback"⟩
    ("http%3A%2F%2Ffinal".data) "http://fallback"
  exact (h.1 (by decide)).trans (by decide)

/-- Claim C6.  GameBounty search is a case-insensitive substring filter of
the query against the hydration payload's game titles, one stub per match
carrying the slug and the page's buildId; and the detail fetch addresses
exactly `{BASE_URL}/_next/data/{buildId}/default/download/{slug}.json?slug={slug}`.
On the spec's fixture (buildId "abc123", one game "Foo Bar"/"foo-bar"),
searching "foo" yields exactly that stub and endpoint. -/
theorem gb_search_match_and_endpoint (q bid : String) (games : List GBGame)
    (hbid : bid ≠ "") :
    gbSearch q (GBSearchResp.ok ⟨some bid, games⟩)
        = (games.filter (gbMatches q)).map (gbStubOf bid)
      ∧ (∀ g : GBGame, gbMatches q g
          = strContains (pyLower (g.title.getD "Unknown Title")) (pyLower q))
      ∧ gbSearch "foo" (GBSearchResp.ok ⟨some "abc123", [fooGame]⟩) = [fooStub]
      ∧ fooStub.slug = some "foo-bar"
      ∧ fooStub.build_id = "abc123"
      ∧ gbDetailUrl fooStub
          = "https://gamebounty.world/_next/data/abc123/default/download/foo-bar.json?slug=foo-bar" := by
  refine ⟨?_, fun g => rfl, by decide, rfl, rfl, by decide⟩
  simp only [gbSearch]
  rw [if_neg hbid]

/-- Claim C6, witness: the fixture search applied through the theorem. -/
theorem gb_search_match_and_endpoint_witness :
    gbSearch "foo" (GBSearchResp.ok ⟨some "abc123", [fooGame]⟩) = [fooStub] :=
  (gb_search_match_and_endpoint "foo" "abc123" [fooGame] (by decide)).2.2.1

/-- Claim C7, counterexample.  A concrete aggregate run returns a Steam
record whose single download entry has host `""` (the button text was empty)
and a GameBounty soft-fail record with NO downloads field at all — refuting
both "entries always have a non-empty host" and "its downloads field is a
list (never null)" as universal invariants. -/
theorem record_invariants_cex :
    fullSearch "" (fun _ => cexSteamResp) cexSteamEnv
        (fun _ => AnkerSearchResp.netErr) (fun _ => none) netDead
        (fun _ => cexGbResp) cexGbEnv
        = [⟨"T", "SteamUnderground", some "http://page",
            some [⟨"", some "http://dl", none, none⟩]⟩,
           ⟨"G", "GameBounty", none, none⟩]
      ∧ (DownloadEntry.mk "" (some "http://dl") none none).host = ""
      ∧ (Record.mk "G" "GameBounty" none none).downloads = none :=
  ⟨by decide, rfl, rfl⟩

/-- Claim C7, amended.  Every aggregate record's source is one of the three
enum values; the downloads field, when present, is a list (and Steam/Anker
records always carry one — only GameBounty soft-fail records omit it); entry
hosts are strings but may be empty. -/
theorem record_invariants_amended (q : String)
    (ssr : String → SteamSearchResp) (senv : Stub → Option SteamDetailPage)
    (asr : String → AnkerSearchResp) (aenv : Stub → Option AnkerDetailPage)
    (anet : AnkerNet)
    (gsr : String → GBSearchResp) (genv : GBStub → GBDetailOutcome)
    (r : Record) (h : r ∈ fullSearch q ssr senv asr aenv anet gsr genv) :
    (r.source = "SteamUnderground" ∨ r.source = "AnkerGames"
        ∨ r.source = "GameBounty")
      ∧ (r.downloads = none → r.source = "GameBounty") := by
  rw [fullSearch_eq] at h
  rcases List.mem_append.mp h with h1 | hgb
  · rcases List.mem_append.mp h1 with hst | hak
    · obtain ⟨hsrc, ds, hds, _⟩ := steamRun_facts _ _ _ hst
      refine ⟨Or.inl hsrc, fun hn => ?_⟩
      rw [hds] at hn
      cases hn
    · obtain ⟨hsrc, ds, hds, _⟩ := ankerRun_facts _ _ _ _ hak
      refine ⟨Or.inr (Or.inl hsrc), fun hn => ?_⟩
      rw [hds] at hn
      cases hn
  · obtain ⟨hsrc, _⟩ := gbRun_facts _ _ _ _ hgb
    exact ⟨Or.inr (Or.inr hsrc), fun _ => hsrc⟩

/-- Claim C7, amended, witness: the GameBounty soft-fail record of the
concrete aggregate run satisfies the amended invariant. -/
theorem record_invariants_amended_witness :
    ((Record.mk "G" "GameBounty" none none).source = "SteamUnderground"
        ∨ (Record.mk "G" "GameBounty" none none).source = "AnkerGames"
        ∨ (Record.mk "G" "GameBounty" none none).source = "GameBounty")
      ∧ ((Record.mk "G" "GameBounty" none none).downloads = none →
          (Record.mk "G" "GameBounty" none none).source = "GameBounty") :=
  record_invariants_amended "" (fun _ => cexSteamResp) cexSteamEnv
    (fun _ => AnkerSearchResp.netErr) (fun _ => none) netDead
    (fun _ => cexGbResp) cexGbEnv (Record.mk "G" "GameBounty" none none)
    (by decide)

/-- Claim C8, counterexample.  In a concrete aggregate run, the Steam
record's download entry `{host: "", url: "http://dl"}` has NO `resolved` key
(`resolved = none` in the model) — the Steam and GameBounty builders never
write one — refuting "every entry contains a boolean `resolved`". -/
theorem download_entry_shape_cex :
    fullSearch "" (fun _ => cexSteamResp) cexSteamEnv
        (fun _ => AnkerSearchResp.netErr) (fun _ => none) netDead
        (fun _ => cexGbResp) cexGbEnv
        = [⟨"T", "SteamUnderground", some "http://page",
            some [⟨"", some "http://dl", none, none⟩]⟩,
           ⟨"G", "GameBounty", none, none⟩]
      ∧ (DownloadEntry.mk "" (some "http://dl") none none).resolved = none :=
  ⟨by decide, rfl⟩

/-- Claim C8, amended.  Every download entry of every aggregate record has a
string host and a url field, and optionally a string status; but the boolean
`resolved` key is present exactly on AnkerGames entries, a `status` key
occurs only on GameBounty entries, and a null url value only on GameBounty
entries. -/
theorem download_entry_shape_amended (q : String)
    (ssr : String → SteamSearchResp) (senv : Stub → Option SteamDetailPage)
    (asr : String → AnkerSearchResp) (aenv : Stub → Option AnkerDetailPage)
    (anet : AnkerNet)
    (gsr : String → GBSearchResp) (genv : GBStub → GBDetailOutcome)
    (r : Record) (ds : List DownloadEntry) (e : DownloadEntry)
    (hr : r ∈ fullSearch q ssr senv asr aenv anet gsr genv)
    (hds : r.downloads = some ds) (he : e ∈ ds) :
    (e.resolved.isSome = true ↔ r.source = "AnkerGames")
      ∧ (e.status.isSome = true → r.source = "GameBounty")
      ∧ (e.url = none → r.source = "GameBounty") := by
  rw [fullSearch_eq] at hr
  rcases List.mem_append.mp hr with h1 | hgb
  · rcases List.mem_append.mp h1 with hst | hak
    · obtain ⟨hsrc, ds2, hds2, hsh⟩ := steamRun_facts _ _ _ hst
      rw [hds2] at hds
      injection hds with hds
      subst hds
      obtain ⟨hres, hstat, hurl⟩ := hsh e he
      refine ⟨⟨?_, ?_⟩, ?_, ?_⟩
      · intro hx; rw [hres] at hx; simp at hx
      · intro hx; rw [hsrc] at hx; exact absurd hx (by decide)
      · intro hx; rw [hstat] at hx; simp at hx
      · intro hx; rw [hx] at hurl; simp at hurl
    · obtain ⟨hsrc, ds2, hds2, hsh⟩ := ankerRun_facts _ _ _ _ hak
      rw [hds2] at hds
      injection hds with hds
      subst hds
      obtain ⟨hres, hstat, hurl⟩ := hsh e he
      refine ⟨⟨fun _ => hsrc, fun _ => hres⟩, ?_, ?_⟩
      · intro hx; rw [hstat] at hx; simp at hx
      · intro hx; rw [hx] at hurl; simp at hurl
  · obtain ⟨hsrc, hall⟩ := gbRun_facts _ _ _ _ hgb
    have hres := hall ds hds e he
    refine ⟨⟨?_, ?_⟩, fun _ => hsrc, fun _ => hsrc⟩
    · intro hx; rw [hres] at hx; simp at hx
    · intro hx; rw [hsrc] at hx; exact absurd hx (by decide)

/-- Claim C8, amended, witness: the Steam entry of the concrete aggregate
run satisfies the amended shape facts. -/
theorem download_entry_shape_amended_witness :
    ((DownloadEntry.mk "" (some "http://dl") none none).resolved.isSome = true
        ↔ (Record.mk "T" "SteamUnderground" (some "http://page")
            (some [DownloadEntry.mk "" (some "http://dl") none none])).source
          = "AnkerGames")
      ∧ ((DownloadEntry.mk "" (some "http://dl") none none).status.isSome = true →
          (Record.mk "T" "SteamUnderground" (some "http://page")
            (some [DownloadEntry.mk "" (some "http://dl") none none])).source
          = "GameBounty")
      ∧ ((DownloadEntry.mk "" (some "http://dl") none none).url = none →
          (Record.mk "T" "SteamUnderground" (some "http://page")
            (some [DownloadEntry.mk "" (some "http://dl") none none])).source
          = "GameBounty") :=
  download_entry_shape_amended "" (fun _ => cexSteamResp) cexSteamEnv
    (fun _ => AnkerSearchResp.netErr) (fun _ => none) netDead
    (fun _ => cexGbResp) cexGbEnv
    (Record.mk "T" "SteamUnderground" (some "http://page")
      (some [DownloadEntry.mk "" (some "http://dl") none none]))
    [DownloadEntry.mk "" (some "http://dl") none none]
    (DownloadEntry.mk "" (some "http://dl") none none)
    (by decide) rfl (by decide)

/-- Claim C9, counterexample.  With empty mirrors and a description holding
the anchor "http://example.com/files/steam-rip.zip" — whose URL host is
example.com, pointing at no storefront domain under either reading — the
fallback still EXCLUDES it (the code filters on the substring "steam"
anywhere in the href), so the fallback does not include "all other anchors":
only the clean second anchor survives. -/
theorem gb_fallback_storefront_cex :
    (gbSelectContainer cexFallbackProps).mirrors = []
      ∧ (gbSelectPost cexFallbackProps).descriptionAnchors
          = ["http://example.com/files/steam-rip.zip", "http://mirror.example/x.zip"]
      ∧ specPointsAtStorefront "http://example.com/files/steam-rip.zip" = false
      ∧ (gbBuildRecord fooStub cexFallbackProps).downloads
          = some [⟨"External", some "http://mirror.example/x.zip", none, none⟩] :=
  ⟨rfl, rfl, by decide, by decide⟩

/-- Claim C9, amended.  When the mirrors array is empty and the post has a
description field, the downloads list is the description's anchors with
exactly those hrefs CONTAINING THE SUBSTRING "steam" excluded; every other
anchor is included, in order, with host "External". -/
theorem gb_fallback_steam_substring (s : GBStub) (p : GBProps)
    (hm : (gbSelectContainer p).mirrors = [])
    (hd : (gbSelectPost p).hasDescription = true) :
    (gbBuildRecord s p).downloads
        = some ((gbSelectPost p).descriptionAnchors.filterMap (fun href =>
            if strContains href "steam" = true then none
            else some ⟨"External", some href, none, none⟩))
      ∧ gbFallback (gbSelectPost p).descriptionAnchors
          = (gbSelectPost p).descriptionAnchors.filterMap (fun href =>
              if strContains href "steam" = true then none
              else some ⟨"External", some href, none, none⟩) := by
  refine ⟨?_, rfl⟩
  unfold gbBuildRecord gbDownloads
  rw [hm]
  simp [gbMirrorEntries, hd, gbFallback]

/-- Claim C9, amended, witness: on the concrete fixture the steam-substring
anchor is dropped and the clean anchor is kept with host "External". -/
theorem gb_fallback_steam_substring_witness :
    (gbBuildRecord fooStub cexFallbackProps).downloads
      = some [⟨"External", some "http://mirror.example/x.zip", none, none⟩] := by
  have h := gb_fallback_steam_substring fooStub cexFallbackProps rfl rfl
  exact h.1.trans (by decide)
